import Mathlib

/-!
# A verification of the AcuityCheck measurement-and-calibration pipeline

Shallow embedding of the core of the AcuityCheck repository:
`src/acuitycheck/geometry.py`, `src/acuitycheck/snellen.py`,
`src/acuitycheck/detection.py`, `src/acuitycheck/ui.py` and `app.py`.

Python floats are modelled as exact rationals (`ℚ`); the external OpenCV
calls (YuNet detection, Haar-cascade eye detection) are modelled as oracle
inputs describing their observable outcome, while everything the Python
code itself computes from those outcomes is translated directly.
-/

namespace AcuityCheck

/-! ## geometry.py -/

/-- `compute_distance_mm` from `src/acuitycheck/geometry.py` (lines 35-37):
`cam_to_eye = (float(ipd_mm) * float(f_px)) / max(1e-6, float(pixel_ipd))`;
`eye_to_screen = max(0.0, cam_to_eye - max(0.0, float(offset_mm)))`. -/
def compute_distance_mm (pixel_ipd ipd_mm f_px offset_mm : ℚ) : ℚ × ℚ :=
  let cam_to_eye := (ipd_mm * f_px) / max (1 / 1000000) pixel_ipd
  let eye_to_screen := max 0 (cam_to_eye - max 0 offset_mm)
  (cam_to_eye, eye_to_screen)

/-! ## snellen.py -/

/-- `snellen_letter_height_mm` from `src/acuitycheck/snellen.py` (line 24):
`float(distance_mm) * 0.001454 * (float(snellen_den) / 6.0)`. -/
def snellen_letter_height_mm (distance_mm snellen_den : ℚ) : ℚ :=
  distance_mm * (1454 / 1000000) * (snellen_den / 6)

/-- The canonical Snellen denominators used throughout `app.py`
(line 349: `denominators = [60, 48, 36, 24, 18, 12, 9, 6]`). -/
def canonicalDenominators : List ℚ := [60, 48, 36, 24, 18, 12, 9, 6]

/-! ## Python string helpers

`pyLower` is `str.lower()`, `pyStrMul` is string repetition `s * n`, and
`pyReplaceChar` is `str.replace(old, new)` for a one-character pattern
(which replaces every occurrence of that character). -/

def pyLower (s : String) : String :=
  String.mk (s.data.map Char.toLower)

def pyStrMul (s : String) (n : ℕ) : String :=
  (List.replicate n s).foldl (fun a b => a ++ b) ""

def pyReplaceChar (s : String) (old new : Char) : String :=
  String.mk (s.data.map fun c => if c = old then new else c)

/-! ## Chart line generation (app.py and ui.py)

`app.py` and `src/acuitycheck/ui.py` each contain a copy of
`build_chart_lines`; in Python `single_letter` defaults to `"A"`, here it is
passed explicitly. -/

namespace App

/-- `build_chart_lines` from `app.py` (lines 78-112).  The classic list
writes its seventh line as `"FEL0PZD".replace("0","O")`. -/
def build_chart_lines (chart_style : String) (denominators : List ℤ)
    (single_letter : String) : List String :=
  let style := pyLower chart_style
  if style = "classic snellen" then
    let classic : List String :=
      ["E", "FP", "TOZ", "LPED", "PECFD", "EDFCZP",
        pyReplaceChar "FEL0PZD" '0' 'O', "DEFPOTEC"]
    if denominators.length ≤ classic.length then
      classic.take denominators.length
    else
      classic ++ List.replicate (denominators.length - classic.length)
        (classic.getLastD "")
  else if style = "single letter" then
    (List.range denominators.length).map fun i =>
      pyStrMul single_letter (max 2 (min 10 (2 + i)))
  else
    let base_letters := "CDHKNORSVZ".data
    (List.range denominators.length).map fun i =>
      let n := max 2 (min 10 (2 + i))
      String.mk ((List.range n).map fun j =>
        base_letters.getD ((j + i) % base_letters.length) 'A')

end App

namespace Ui

/-- `build_chart_lines` from `src/acuitycheck/ui.py` (lines 89-143).  The
classic list writes its seventh line as the literal `"FELOPZD"`. -/
def build_chart_lines (chart_style : String) (denominators : List ℤ)
    (single_letter : String) : List String :=
  let style := pyLower chart_style
  if style = "classic snellen" then
    let classic : List String :=
      ["E", "FP", "TOZ", "LPED", "PECFD", "EDFCZP",
        "FELOPZD", "DEFPOTEC"]
    if denominators.length ≤ classic.length then
      classic.take denominators.length
    else
      classic ++ List.replicate (denominators.length - classic.length)
        (classic.getLastD "")
  else if style = "single letter" then
    (List.range denominators.length).map fun i =>
      pyStrMul single_letter (max 2 (min 10 (2 + i)))
  else
    let base_letters := "CDHKNORSVZ".data
    (List.range denominators.length).map fun i =>
      let n := max 2 (min 10 (2 + i))
      String.mk ((List.range n).map fun j =>
        base_letters.getD ((j + i) % base_letters.length) 'A')

end Ui

/-- The canonical 8-line classic Snellen sequence named by the spec. -/
def classicSnellenLines : List String :=
  ["E", "FP", "TOZ", "LPED", "PECFD", "EDFCZP", "FELOPZD", "DEFPOTEC"]

/-! ## Session state (app.py `main`) -/

/-- The persisted Streamlit session state of `app.py`:
`st.session_state.f_px` and `st.session_state.eye_to_screen_mm`, both
initialised to `None`. -/
structure SessionState where
  f_px : Option ℚ
  eye_to_screen_mm : Option ℚ
deriving DecidableEq

/-- The focal-calibration button handler in `app.py` `main` (lines 321-326):
if `pixel_ipd is None` it emits the warning "Take a snapshot first." and
leaves the session state untouched; otherwise it stores
`(pixel_ipd * known_mm) / ipd_mm` into `f_px`.  Returns the new state and
whether the warning was emitted. -/
def calibrate_focal_click (s : SessionState) (pixel_ipd : Option ℚ)
    (known_mm ipd_mm : ℚ) : SessionState × Bool :=
  match pixel_ipd with
  | none => (s, true)
  | some p => ({ s with f_px := some ((p * known_mm) / ipd_mm) }, false)

/-- The chart-step viewing distance in `app.py` `main` (lines 343-351):
`distance_mm = st.session_state.get("eye_to_screen_mm")`;
`if not distance_mm: distance_mm = 3000.0` — Python truthiness makes both
`None` and `0.0` fall back to the 3000 mm default. -/
def chart_distance_mm (eye_to_screen_mm : Option ℚ) : ℚ :=
  match eye_to_screen_mm with
  | none => 3000
  | some d => if d = 0 then 3000 else d

/-! ## detection.py

The two OpenCV calls are modelled as oracles for their observable outcome:
the Haar cascade in `detect_eyes_in_roi` as an `Option (List EyeRect)`
(`none` = the `CascadeClassifier` constructor raised, `some rs` = the
rectangles returned by `detectMultiScale`), and the YuNet detector in
`run_yunet_cv2` as a `YunetOutcome`. -/

/-- Python `int(v)` on a float: truncation toward zero. -/
def pyInt (q : ℚ) : ℤ := if q < 0 then ⌈q⌉ else ⌊q⌋

/-- The number of indices selected by the Python slice `a[lo:hi]` (step 1)
from a sequence of length `len`: negative bounds count from the end, and
both bounds are clamped to the sequence. -/
def sliceLen (len : ℕ) (lo hi : ℤ) : ℕ :=
  let norm : ℤ → ℤ := fun i => if i < 0 then max 0 ((len : ℤ) + i) else min i len
  (norm hi - norm lo).toNat

/-- `roi_gray = gray_frame[y : y + h, x : x + w]; roi_gray.size` for a
grayscale frame with `height` rows and `width` columns. -/
def roiSize (height width : ℕ) (x y w h : ℤ) : ℕ :=
  sliceLen height y (y + h) * sliceLen width x (x + w)

/-- One rectangle returned by `detectMultiScale` (integer pixel units). -/
structure EyeRect where
  ex : ℤ
  ey : ℤ
  ew : ℤ
  eh : ℤ
deriving DecidableEq

/-- The sort key of `sorted(eyes, key=lambda r: r[2] * r[3], reverse=True)`:
`areaGE a b` holds when `a`'s area is at least `b`'s, so that a stable sort
by `areaGE` lists larger areas first, ties in original order — exactly
Python's stable descending sort. -/
def areaGE (a b : EyeRect) : Prop := b.ew * b.eh ≤ a.ew * a.eh

instance : DecidableRel areaGE := fun a b =>
  inferInstanceAs (Decidable (b.ew * b.eh ≤ a.ew * a.eh))

instance : IsTotal EyeRect areaGE :=
  ⟨fun a b => le_total (b.ew * b.eh) (a.ew * a.eh)⟩

instance : IsTrans EyeRect areaGE :=
  ⟨fun _ _ _ h1 h2 => le_trans h2 h1⟩

/-- The sort key of `sorted(eye_centres, key=lambda p: p[0])`: ascending by
the x-coordinate. -/
def xLE (p q : ℚ × ℚ) : Prop := p.1 ≤ q.1

instance : DecidableRel xLE := fun p q =>
  inferInstanceAs (Decidable (p.1 ≤ q.1))

instance : IsTotal (ℚ × ℚ) xLE := ⟨fun p q => le_total p.1 q.1⟩

instance : IsTrans (ℚ × ℚ) xLE := ⟨fun _ _ _ h1 h2 => le_trans h1 h2⟩

/-- `cx = x + ex + ew / 2.0; cy = y + ey + eh / 2.0`: the centre of a
detected eye rectangle in full-frame coordinates. -/
def eyeCentre (x y : ℤ) (r : EyeRect) : ℚ × ℚ :=
  ((x : ℚ) + (r.ex : ℚ) + (r.ew : ℚ) / 2, (y : ℚ) + (r.ey : ℚ) + (r.eh : ℚ) / 2)

/-- `detect_eyes_in_roi` from `src/acuitycheck/detection.py` (lines 77-139)
for a frame of `height × width` pixels.  Python's stable `sorted` is
modelled by `List.insertionSort`, which is stable for a total transitive
relation (ties keep their original order). -/
def detect_eyes_in_roi (height width : ℕ) (box : ℚ × ℚ × ℚ × ℚ)
    (cascade : Option (List EyeRect)) : Option (List (ℚ × ℚ)) :=
  let x := pyInt box.1
  let y := pyInt box.2.1
  let w := pyInt box.2.2.1
  let h := pyInt box.2.2.2
  if roiSize height width x y w h = 0 then none
  else
    match cascade with
    | none => none
    | some eyes =>
      if eyes.length < 2 then none
      else
        let top2 := (List.insertionSort areaGE eyes).take 2
        let eye_centres := top2.map (eyeCentre x y)
        some (List.insertionSort xLE eye_centres)

/-- One row of the YuNet result matrix (15 floats): bounding box, right eye,
left eye, nose tip, right mouth corner, left mouth corner, confidence
score. -/
structure Face where
  x : ℚ
  y : ℚ
  w : ℚ
  h : ℚ
  rex : ℚ
  rey : ℚ
  lex : ℚ
  ley : ℚ
  nx : ℚ
  ny : ℚ
  rmx : ℚ
  rmy : ℚ
  lmx : ℚ
  lmy : ℚ
  score : ℚ
deriving DecidableEq

/-- The observable outcome of the guarded YuNet invocation:
the model artifact is absent (`model_path.exists()` is false), some
exception was raised during loading or detection, or `detector.detect`
returned the given (possibly empty) list of candidate faces. -/
inductive YunetOutcome where
  | modelMissing : YunetOutcome
  | failure : YunetOutcome
  | faces : List Face → YunetOutcome
deriving DecidableEq

/-- `np.argmax(faces[:, 14])` followed by row selection: the first face of
maximal score (`foldl` keeps the earlier face unless a strictly higher
score appears, exactly as `argmax` returns the first maximiser). -/
def bestFace (f : Face) (fs : List Face) : Face :=
  fs.foldl (fun acc g => if acc.score < g.score then g else acc) f

/-- The 5 keypoints extracted from the best face (lines 64-70 of
`detection.py`). -/
def faceKeypoints (f : Face) : List (ℚ × ℚ) :=
  [(f.rex, f.rey), (f.lex, f.ley), (f.nx, f.ny), (f.rmx, f.rmy), (f.lmx, f.lmy)]

/-- `run_yunet_cv2` from `src/acuitycheck/detection.py` (lines 9-75): the
whole body is wrapped in `try/except` returning `(None, None)`; a missing
model artifact and an empty detection also return `(None, None)`; otherwise
the box and keypoints of the highest-scoring face are returned. -/
def run_yunet_cv2 (outcome : YunetOutcome) :
    Option (ℚ × ℚ × ℚ × ℚ) × Option (List (ℚ × ℚ)) :=
  match outcome with
  | .modelMissing => (none, none)
  | .failure => (none, none)
  | .faces [] => (none, none)
  | .faces (f :: fs) =>
    let best := bestFace f fs
    (some (best.x, best.y, best.w, best.h), some (faceKeypoints best))

/-- Sample face with score 3/10 (used only as a concrete witness input). -/
def sampleFaceA : Face :=
  ⟨10, 20, 100, 120, 30, 40, 70, 40, 50, 60, 35, 90, 65, 90, 3/10⟩

/-- Sample face with score 9/10 (used only as a concrete witness input). -/
def sampleFaceB : Face :=
  ⟨200, 30, 90, 110, 220, 50, 260, 50, 240, 70, 225, 100, 255, 100, 9/10⟩

/-! ## Helper lemmas -/

/-- `"FEL0PZD".replace("0","O")` evaluates to `"FELOPZD"`. -/
theorem pyReplaceChar_classic : pyReplaceChar "FEL0PZD" '0' 'O' = "FELOPZD" := by
  decide

/-- The running best face is one of the candidates. -/
theorem bestFace_mem : ∀ (fs : List Face) (f : Face), bestFace f fs ∈ f :: fs := by
  intro fs
  induction fs with
  | nil => intro f; simp [bestFace]
  | cons g fs ih =>
    intro f
    have hstep : bestFace f (g :: fs)
        = bestFace (if f.score < g.score then g else f) fs := rfl
    rw [hstep]
    rcases List.mem_cons.mp (ih (if f.score < g.score then g else f)) with h1 | h1
    · rw [h1]
      by_cases hc : f.score < g.score
      · rw [if_pos hc]
        exact List.mem_cons_of_mem _ (List.mem_cons_self _ _)
      · rw [if_neg hc]
        exact List.mem_cons_self _ _
    · exact List.mem_cons_of_mem _ (List.mem_cons_of_mem _ h1)

/-- Every candidate's score is at most the running best face's score. -/
theorem bestFace_le_score :
    ∀ (fs : List Face) (f : Face), ∀ g ∈ f :: fs, g.score ≤ (bestFace f fs).score := by
  intro fs
  induction fs with
  | nil =>
    intro f g hg
    rcases List.mem_cons.mp hg with h | h
    · rw [h]; exact le_refl _
    · exact absurd h (List.not_mem_nil g)
  | cons a fs ih =>
    intro f g hg
    have hstep : bestFace f (a :: fs)
        = bestFace (if f.score < a.score then a else f) fs := rfl
    rw [hstep]
    have hf : f.score ≤ (if f.score < a.score then a else f).score := by
      by_cases hc : f.score < a.score
      · rw [if_pos hc]; exact le_of_lt hc
      · rw [if_neg hc]
    have ha : a.score ≤ (if f.score < a.score then a else f).score := by
      by_cases hc : f.score < a.score
      · rw [if_pos hc]
      · rw [if_neg hc]; exact le_of_not_lt hc
    have hbest : (if f.score < a.score then a else f).score
        ≤ (bestFace (if f.score < a.score then a else f) fs).score :=
      ih (if f.score < a.score then a else f)
        (if f.score < a.score then a else f) (List.mem_cons_self _ _)
    rcases List.mem_cons.mp hg with h | h
    · subst h; exact le_trans hf hbest
    · rcases List.mem_cons.mp h with h2 | h2
      · subst h2; exact le_trans ha hbest
      · exact ih _ g (List.mem_cons_of_mem _ h2)

/-! ## Theorems for the claims -/

/-- C1: `compute_distance_mm pixel_ipd ipd_mm f_px offset_mm` returns the pair
`(cam_to_eye, eye_to_screen)` with
`cam_to_eye = (ipd_mm * f_px) / max 1e-6 pixel_ipd` and
`eye_to_screen = max 0 (cam_to_eye - max 0 offset_mm)`; in particular under
positive `pixel_ipd`, `ipd_mm`, `f_px` and nonnegative `offset_mm` the
returned `eye_to_screen` is nonnegative. -/
theorem compute_distance_mm_spec (pixel_ipd ipd_mm f_px offset_mm : ℚ) :
    (compute_distance_mm pixel_ipd ipd_mm f_px offset_mm).1
      = (ipd_mm * f_px) / max (1 / 1000000) pixel_ipd ∧
    (compute_distance_mm pixel_ipd ipd_mm f_px offset_mm).2
      = max 0 ((compute_distance_mm pixel_ipd ipd_mm f_px offset_mm).1
          - max 0 offset_mm) ∧
    (0 < pixel_ipd → 0 < ipd_mm → 0 < f_px → 0 ≤ offset_mm →
      0 ≤ (compute_distance_mm pixel_ipd ipd_mm f_px offset_mm).2) :=
  ⟨rfl, rfl, fun _ _ _ _ => le_max_left _ _⟩

/-- Witness for C1 at `pixel_ipd = 50`, `ipd_mm = 63`, `f_px = 500`,
`offset_mm = 40`. -/
theorem compute_distance_mm_spec_witness :
    (0:ℚ) < 50 ∧ (0:ℚ) < 63 ∧ (0:ℚ) < 500 ∧ (0:ℚ) ≤ 40 ∧
      0 ≤ (compute_distance_mm 50 63 500 40).2 :=
  ⟨by norm_num, by norm_num, by norm_num, by norm_num,
    (compute_distance_mm_spec 50 63 500 40).2.2
      (by norm_num) (by norm_num) (by norm_num) (by norm_num)⟩

/-- C2, counterexample: for `X = 1/10^7` (a positive pixel IPD below the
`1e-6` epsilon floor), `D = 500`, `I = 63`, the calibrated focal length
`(X * D) / I` fed back into `compute_distance_mm` yields a camera-to-eye
distance of `50`, not `D = 500`. -/
theorem calibration_roundtrip_counterexample :
    (compute_distance_mm (1/10000000) 63 (((1/10000000) * 500) / 63) 0).1 = 50 ∧
      ((compute_distance_mm (1/10000000) 63 (((1/10000000) * 500) / 63) 0).1
        ≠ 500) := by
  constructor
  · unfold compute_distance_mm
    rw [show max ((1:ℚ) / 1000000) (1/10000000) = 1/1000000 by norm_num]
    norm_num
  · unfold compute_distance_mm
    rw [show max ((1:ℚ) / 1000000) (1/10000000) = 1/1000000 by norm_num]
    norm_num

/-- C2 (amended): whenever the pixel IPD `X` is at least the epsilon floor
`1e-6` and the assumed IPD `I` is nonzero, the focal length `(X * D) / I`
fed back into `compute_distance_mm` with the same `X`, `I` and offset `0`
yields a camera-to-eye distance exactly `D`. -/
theorem calibration_roundtrip (X D I : ℚ)
    (hX : 1 / 1000000 ≤ X) (hI : I ≠ 0) :
    (compute_distance_mm X I ((X * D) / I) 0).1 = D := by
  have hX0 : X ≠ 0 := by
    intro h; rw [h] at hX; norm_num at hX
  unfold compute_distance_mm
  rw [max_eq_right hX]
  field_simp

/-- Witness for the amended C2 at `X = 100`, `D = 500`, `I = 63`. -/
theorem calibration_roundtrip_witness :
    (1:ℚ)/1000000 ≤ 100 ∧ (63:ℚ) ≠ 0 ∧
      (compute_distance_mm 100 63 ((100 * 500) / 63) 0).1 = 500 :=
  ⟨by norm_num, by norm_num,
    calibration_roundtrip 100 500 63 (by norm_num) (by norm_num)⟩

/-- C3: `snellen_letter_height_mm distance_mm den` equals
`distance_mm * 0.001454 * (den / 6)`, is linear in distance (doubling the
distance doubles the height), and at distance `3000` with denominator `6`
equals exactly `4.362`. -/
theorem snellen_letter_height_mm_spec (d den : ℚ) :
    snellen_letter_height_mm d den = d * (1454 / 1000000) * (den / 6) ∧
    snellen_letter_height_mm (2 * d) den = 2 * snellen_letter_height_mm d den ∧
    snellen_letter_height_mm 3000 6 = 4362 / 1000 := by
  refine ⟨rfl, ?_, by norm_num [snellen_letter_height_mm]⟩
  unfold snellen_letter_height_mm
  ring

/-- C4: for every fixed positive distance, `snellen_letter_height_mm` is
strictly increasing in the denominator across the canonical ChartSpec
denominators: a smaller canonical denominator yields a strictly smaller
letter height. -/
theorem snellen_letter_height_mm_mono (d d1 d2 : ℚ) (hd : 0 < d)
    (h1 : d1 ∈ canonicalDenominators) (h2 : d2 ∈ canonicalDenominators)
    (hlt : d1 < d2) :
    snellen_letter_height_mm d d1 < snellen_letter_height_mm d d2 := by
  unfold snellen_letter_height_mm
  have hpos : 0 < d * (1454 / 1000000) := by positivity
  have h6 : d1 / 6 < d2 / 6 := by linarith
  exact mul_lt_mul_of_pos_left h6 hpos

/-- Witness for C4 at `d = 3000`, `d1 = 9`, `d2 = 12`. -/
theorem snellen_letter_height_mm_mono_witness :
    (0:ℚ) < 3000 ∧ (9:ℚ) ∈ canonicalDenominators ∧
      (12:ℚ) ∈ canonicalDenominators ∧ (9:ℚ) < 12 ∧
      snellen_letter_height_mm 3000 9 < snellen_letter_height_mm 3000 12 :=
  ⟨by norm_num, by norm_num [canonicalDenominators],
    by norm_num [canonicalDenominators], by norm_num,
    snellen_letter_height_mm_mono 3000 9 12 (by norm_num)
      (by norm_num [canonicalDenominators])
      (by norm_num [canonicalDenominators]) (by norm_num)⟩

/-- C5: for the classic snellen style, `build_chart_lines` on the 8 canonical
denominators returns exactly the canonical 8-line sequence (letter O, never
digit zero); with fewer than 8 denominators the canonical sequence is
truncated from the top; with more than 8, the last line `"DEFPOTEC"` is
repeated for the overflow; and in every case the result has exactly one line
per input denominator. -/
theorem build_chart_lines_classic_spec :
    App.build_chart_lines "classic snellen" [60, 48, 36, 24, 18, 12, 9, 6] "A"
        = classicSnellenLines ∧
    (∀ (letter : String) (dens : List ℤ), dens.length ≤ 8 →
      App.build_chart_lines "classic snellen" dens letter
        = classicSnellenLines.take dens.length) ∧
    (∀ (letter : String) (dens : List ℤ), 8 < dens.length →
      App.build_chart_lines "classic snellen" dens letter
        = classicSnellenLines ++ List.replicate (dens.length - 8) "DEFPOTEC") ∧
    (∀ (letter : String) (dens : List ℤ),
      (App.build_chart_lines "classic snellen" dens letter).length
        = dens.length) := by
  have hstyle : pyLower "classic snellen" = "classic snellen" := by decide
  refine ⟨?_, ?_, ?_, ?_⟩
  · simp only [App.build_chart_lines, hstyle, pyReplaceChar_classic,
      classicSnellenLines]
    decide
  · intro letter dens hlen
    simp only [App.build_chart_lines, hstyle, pyReplaceChar_classic,
      classicSnellenLines]
    rw [if_pos trivial]
    simp only [List.length_cons, List.length_nil]
    rw [if_pos (by omega)]
  · intro letter dens hlen
    simp only [App.build_chart_lines, hstyle, pyReplaceChar_classic,
      classicSnellenLines]
    rw [if_pos trivial]
    simp only [List.length_cons, List.length_nil]
    rw [if_neg (by omega)]
    rfl
  · intro letter dens
    simp only [App.build_chart_lines, hstyle, pyReplaceChar_classic]
    rw [if_pos trivial]
    simp only [List.length_cons, List.length_nil]
    by_cases h : dens.length ≤ 7 + 1
    · rw [if_pos h]
      simp only [List.length_take, List.length_cons, List.length_nil]
      omega
    · rw [if_neg h]
      simp only [List.length_append, List.length_replicate, List.length_cons,
        List.length_nil]
      omega

/-- Witness for C5: instantiates the truncation branch at a 3-element
denominator list and the overflow branch at a 9-element list. -/
theorem build_chart_lines_classic_spec_witness :
    ([60, 48, 36] : List ℤ).length ≤ 8 ∧
    App.build_chart_lines "classic snellen" [60, 48, 36] "A"
      = classicSnellenLines.take 3 ∧
    8 < ([60, 48, 36, 24, 18, 12, 9, 6, 3] : List ℤ).length ∧
    App.build_chart_lines "classic snellen" [60, 48, 36, 24, 18, 12, 9, 6, 3] "A"
      = classicSnellenLines ++ List.replicate 1 "DEFPOTEC" :=
  ⟨by norm_num,
    build_chart_lines_classic_spec.2.1 "A" [60, 48, 36] (by norm_num),
    by norm_num,
    build_chart_lines_classic_spec.2.2.1 "A" [60, 48, 36, 24, 18, 12, 9, 6, 3]
      (by norm_num)⟩

/-- C10: the two copies of the chart line generator are equivalent: for every
chart style string, denominator list and single letter, `build_chart_lines`
in `app.py` and `build_chart_lines` in `ui.py` return the same list (in
particular app.py's `"FEL0PZD".replace("0","O")` equals ui.py's literal
`"FELOPZD"`). -/
theorem build_chart_lines_equiv (style : String) (dens : List ℤ)
    (letter : String) :
    App.build_chart_lines style dens letter
      = Ui.build_chart_lines style dens letter := by
  unfold App.build_chart_lines Ui.build_chart_lines
  rw [pyReplaceChar_classic]

/-- C7: requesting focal-length calibration when no pixel IPD is available is
a no-op reported as a warning — the whole session state (in particular
`f_px`) is unchanged; when a pixel IPD `p` is available, `f_px` is
overwritten with `(p * known_mm) / ipd_mm` and no warning is emitted. -/
theorem calibrate_focal_click_spec (s : SessionState)
    (pixel_ipd : Option ℚ) (known_mm ipd_mm : ℚ) :
    (pixel_ipd = none →
      calibrate_focal_click s pixel_ipd known_mm ipd_mm = (s, true)) ∧
    (∀ p : ℚ, pixel_ipd = some p →
      (calibrate_focal_click s pixel_ipd known_mm ipd_mm).1.f_px
          = some ((p * known_mm) / ipd_mm) ∧
      (calibrate_focal_click s pixel_ipd known_mm ipd_mm).1.eye_to_screen_mm
          = s.eye_to_screen_mm ∧
      (calibrate_focal_click s pixel_ipd known_mm ipd_mm).2 = false) := by
  constructor
  · intro h; subst h; rfl
  · intro p h; subst h; exact ⟨rfl, rfl, rfl⟩

/-- Witness for C7: an uncalibrated state stays uncalibrated under a
calibration request with no pixel IPD, and calibrating with pixel IPD `100`,
known distance `500`, assumed IPD `63` stores `100 * 500 / 63`. -/
theorem calibrate_focal_click_spec_witness :
    calibrate_focal_click ⟨none, none⟩ none 500 63 = (⟨none, none⟩, true) ∧
    (calibrate_focal_click ⟨none, none⟩ (some 100) 500 63).1.f_px
      = some ((100 * 500) / 63) :=
  ⟨(calibrate_focal_click_spec ⟨none, none⟩ none 500 63).1 rfl,
    ((calibrate_focal_click_spec ⟨none, none⟩ (some 100) 500 63).2 100 rfl).1⟩

/-- C9: the chart step falls back to the 3000 mm default not only when
`eye_to_screen_mm` is unset but also when it is exactly `0` — a value
`compute_distance_mm` produces whenever the offset is nonnegative and at
least the camera-to-eye distance — and otherwise returns the stored value. -/
theorem chart_distance_mm_spec :
    chart_distance_mm none = 3000 ∧
    chart_distance_mm (some 0) = 3000 ∧
    (∀ d : ℚ, d ≠ 0 → chart_distance_mm (some d) = d) ∧
    (∀ p i f o : ℚ, 0 ≤ o → (compute_distance_mm p i f o).1 ≤ o →
      (compute_distance_mm p i f o).2 = 0) := by
  refine ⟨rfl, rfl, ?_, ?_⟩
  · intro d hd
    simp [chart_distance_mm, hd]
  · intro p i f o ho hle
    show max 0 ((compute_distance_mm p i f o).1 - max 0 o) = 0
    rw [max_eq_right ho]
    exact max_eq_left (by linarith)

/-- Witness for C9: at `pixel_ipd = 100`, `ipd_mm = 63`, `f_px = 500`,
`offset_mm = 400` the camera-to-eye distance is `315 ≤ 400`, so the stored
`eye_to_screen_mm` is `0` and the chart distance falls back to `3000`. -/
theorem chart_distance_mm_spec_witness :
    (700:ℚ) ≠ 0 ∧ chart_distance_mm (some 700) = 700 ∧
    (0:ℚ) ≤ 400 ∧ (compute_distance_mm 100 63 500 400).1 ≤ 400 ∧
    (compute_distance_mm 100 63 500 400).2 = 0 := by
  have h1 : (compute_distance_mm 100 63 500 400).1 ≤ 400 := by
    unfold compute_distance_mm
    rw [show max ((1:ℚ) / 1000000) 100 = 100 by norm_num]
    norm_num
  exact ⟨by norm_num, chart_distance_mm_spec.2.2.1 700 (by norm_num),
    by norm_num, h1, chart_distance_mm_spec.2.2.2 100 63 500 400 (by norm_num) h1⟩

/-- C8: `run_yunet_cv2` never propagates an error: a missing model artifact,
any exception during loading or detection, and an empty face list all yield
`(none, none)`; when faces are found, the result is the box and 5 keypoints
of a candidate of maximal confidence score. -/
theorem run_yunet_cv2_spec :
    run_yunet_cv2 .modelMissing = (none, none) ∧
    run_yunet_cv2 .failure = (none, none) ∧
    run_yunet_cv2 (.faces []) = (none, none) ∧
    (∀ (f : Face) (fs : List Face), ∃ best : Face,
      best ∈ f :: fs ∧
      (∀ g ∈ f :: fs, g.score ≤ best.score) ∧
      run_yunet_cv2 (.faces (f :: fs))
        = (some (best.x, best.y, best.w, best.h), some (faceKeypoints best))) := by
  refine ⟨rfl, rfl, rfl, ?_⟩
  intro f fs
  exact ⟨bestFace f fs, bestFace_mem fs f, bestFace_le_score fs f, rfl⟩

/-- Witness for C8 at the two sample faces: the existence statement is
obtained from the theorem, and the concrete best face is `sampleFaceB`
(score 9/10 against 3/10). -/
theorem run_yunet_cv2_spec_witness :
    (∃ best : Face,
      best ∈ sampleFaceA :: [sampleFaceB] ∧
      (∀ g ∈ sampleFaceA :: [sampleFaceB], g.score ≤ best.score) ∧
      run_yunet_cv2 (.faces (sampleFaceA :: [sampleFaceB]))
        = (some (best.x, best.y, best.w, best.h), some (faceKeypoints best))) ∧
    run_yunet_cv2 (.faces [sampleFaceA, sampleFaceB])
      = (some (200, 30, 90, 110), some (faceKeypoints sampleFaceB)) := by
  refine ⟨run_yunet_cv2_spec.2.2.2 sampleFaceA [sampleFaceB], ?_⟩
  have hlt : (3/10 : ℚ) < 9/10 := by norm_num
  simp [run_yunet_cv2, bestFace, sampleFaceA, sampleFaceB, hlt]

/-- C6: `detect_eyes_in_roi` returns `none` whenever the eye classifier
finds fewer than 2 regions; when the region of interest is nonempty and the
classifier finds at least 2 regions, it returns exactly 2 points — the
full-frame centres of 2 regions of maximal area (every other found region
has area at most either of them) — sorted by ascending x-coordinate. -/
theorem detect_eyes_in_roi_spec (height width : ℕ) (box : ℚ × ℚ × ℚ × ℚ) :
    (∀ eyes : List EyeRect, eyes.length < 2 →
      detect_eyes_in_roi height width box (some eyes) = none) ∧
    (∀ eyes : List EyeRect,
      roiSize height width (pyInt box.1) (pyInt box.2.1)
          (pyInt box.2.2.1) (pyInt box.2.2.2) ≠ 0 →
      2 ≤ eyes.length →
      ∃ (t1 t2 : EyeRect) (rest : List EyeRect) (cs : List (ℚ × ℚ)),
        List.Perm eyes (t1 :: t2 :: rest) ∧
        (∀ r ∈ rest, r.ew * r.eh ≤ t1.ew * t1.eh ∧ r.ew * r.eh ≤ t2.ew * t2.eh) ∧
        detect_eyes_in_roi height width box (some eyes) = some cs ∧
        cs.length = 2 ∧
        (cs = [eyeCentre (pyInt box.1) (pyInt box.2.1) t1,
               eyeCentre (pyInt box.1) (pyInt box.2.1) t2] ∨
         cs = [eyeCentre (pyInt box.1) (pyInt box.2.1) t2,
               eyeCentre (pyInt box.1) (pyInt box.2.1) t1]) ∧
        List.Pairwise (fun p q : ℚ × ℚ => p.1 ≤ q.1) cs) := by
  constructor
  · intro eyes hlt
    simp only [detect_eyes_in_roi]
    by_cases hroi : roiSize height width (pyInt box.1) (pyInt box.2.1)
        (pyInt box.2.2.1) (pyInt box.2.2.2) = 0
    · rw [if_pos hroi]
    · rw [if_neg hroi, if_pos hlt]
  · intro eyes hroi hlen
    have hperm0 : List.Perm (List.insertionSort areaGE eyes) eyes :=
      List.perm_insertionSort areaGE eyes
    have hslen : (List.insertionSort areaGE eyes).length = eyes.length :=
      hperm0.length_eq
    obtain ⟨t1, t2, rest, hs⟩ :
        ∃ (t1 t2 : EyeRect) (rest : List EyeRect),
          List.insertionSort areaGE eyes = t1 :: t2 :: rest := by
      rcases h : List.insertionSort areaGE eyes with _ | ⟨a, _ | ⟨b, l⟩⟩
      · rw [h] at hslen; simp at hslen; omega
      · rw [h] at hslen; simp at hslen; omega
      · exact ⟨a, b, l, rfl⟩
    have hsorted : List.Pairwise areaGE (t1 :: t2 :: rest) := by
      rw [← hs]; exact List.sorted_insertionSort areaGE eyes
    have h12 : areaGE t1 t2 := (List.pairwise_cons.mp hsorted).1 t2
      (List.mem_cons_self _ _)
    have hrest : ∀ r ∈ rest, r.ew * r.eh ≤ t1.ew * t1.eh ∧
        r.ew * r.eh ≤ t2.ew * t2.eh := by
      intro r hr
      refine ⟨(List.pairwise_cons.mp hsorted).1 r (List.mem_cons_of_mem _ hr), ?_⟩
      exact (List.pairwise_cons.mp (List.pairwise_cons.mp hsorted).2).1 r hr
    have hresult : detect_eyes_in_roi height width box (some eyes)
        = some (List.insertionSort xLE
            [eyeCentre (pyInt box.1) (pyInt box.2.1) t1,
             eyeCentre (pyInt box.1) (pyInt box.2.1) t2]) := by
      simp only [detect_eyes_in_roi]
      rw [if_neg hroi, if_neg (by omega), hs]
      rfl
    have hxsorted : List.Pairwise xLE (List.insertionSort xLE
        [eyeCentre (pyInt box.1) (pyInt box.2.1) t1,
         eyeCentre (pyInt box.1) (pyInt box.2.1) t2]) :=
      List.sorted_insertionSort xLE _
    refine ⟨t1, t2, rest, _, ?_, hrest, hresult, ?_, ?_, hxsorted⟩
    · exact (hs ▸ hperm0).symm
    · by_cases hx : xLE (eyeCentre (pyInt box.1) (pyInt box.2.1) t1)
          (eyeCentre (pyInt box.1) (pyInt box.2.1) t2)
      · simp [List.insertionSort, List.orderedInsert, hx]
      · simp [List.insertionSort, List.orderedInsert, hx]
    · by_cases hx : xLE (eyeCentre (pyInt box.1) (pyInt box.2.1) t1)
          (eyeCentre (pyInt box.1) (pyInt box.2.1) t2)
      · left; simp [List.insertionSort, List.orderedInsert, hx]
      · right; simp [List.insertionSort, List.orderedInsert, hx]

/-- Witness for C6: a 480×640 frame, box `(10, 20, 200, 200)` (nonempty
region of interest) and three classifier rectangles, of which the two
largest are kept. -/
theorem detect_eyes_in_roi_spec_witness :
    roiSize 480 640 (pyInt (10:ℚ)) (pyInt (20:ℚ)) (pyInt (200:ℚ))
        (pyInt (200:ℚ)) ≠ 0 ∧
    2 ≤ ([⟨5, 5, 30, 30⟩, ⟨100, 5, 40, 40⟩, ⟨60, 60, 10, 10⟩] :
        List EyeRect).length ∧
    (∃ (t1 t2 : EyeRect) (rest : List EyeRect) (cs : List (ℚ × ℚ)),
      List.Perm [⟨5, 5, 30, 30⟩, ⟨100, 5, 40, 40⟩, ⟨60, 60, 10, 10⟩]
        (t1 :: t2 :: rest) ∧
      (∀ r ∈ rest, r.ew * r.eh ≤ t1.ew * t1.eh ∧ r.ew * r.eh ≤ t2.ew * t2.eh) ∧
      detect_eyes_in_roi 480 640 (10, 20, 200, 200)
          (some [⟨5, 5, 30, 30⟩, ⟨100, 5, 40, 40⟩, ⟨60, 60, 10, 10⟩]) = some cs ∧
      cs.length = 2 ∧
      (cs = [eyeCentre (pyInt (10:ℚ)) (pyInt (20:ℚ)) t1,
             eyeCentre (pyInt (10:ℚ)) (pyInt (20:ℚ)) t2] ∨
       cs = [eyeCentre (pyInt (10:ℚ)) (pyInt (20:ℚ)) t2,
             eyeCentre (pyInt (10:ℚ)) (pyInt (20:ℚ)) t1]) ∧
      List.Pairwise (fun p q : ℚ × ℚ => p.1 ≤ q.1) cs) := by
  refine ⟨?_, by decide, ?_⟩
  · decide
  · exact (detect_eyes_in_roi_spec 480 640 (10, 20, 200, 200)).2
      [⟨5, 5, 30, 30⟩, ⟨100, 5, 40, 40⟩, ⟨60, 60, 10, 10⟩] (by decide) (by decide)

end AcuityCheck
